import Mathlib

/-!
Verification development for the Snowflake service layer of the
customer-analytics repository.

Shallow embedding of `app/utils/snowflake_config.py`,
`app/utils/snowflake_connection.py`, `app/utils/snowflake_validator.py`
and `app/utils/data_export.py`.  External effects (the warehouse, the
network, the driver) are modelled by explicit environment records whose
fields give the outcome of each fallible step; `try/except` blocks become
total functions over those environments; Python lists become Lean lists
and dictionaries become association lists.  Wall-clock timing fields are
fixed at 0 (not modelled).
-/

namespace CustomerAnalytics

/-- A result row, as produced by `DictCursor`: a mapping from column name
to a cell value.  Cell values are opaque to every property proved here;
they are modelled as natural numbers. -/
abbrev Row : Type := List (String × Nat)

/-- Embedding of `SnowflakeConfig` (`snowflake_config.py`): the validated
settings object.  Only the fields the embedded operations read are kept,
with the numeric tunables as naturals. -/
structure SnowflakeConfigData where
  snowflake_account : String
  snowflake_user : String
  snowflake_password : String
  snowflake_warehouse : String
  snowflake_database : String
  snowflake_schema : String
  snowflake_role : Option String
  query_timeout : Nat
  connection_pool_size : Nat
  max_query_rows : Nat
  cache_ttl : Nat
  default_export_format : String
  max_export_size_mb : Nat
  export_retention_days : Nat
  deriving DecidableEq, Repr

/-- Embedding of the `QueryResult` dataclass (`snowflake_connection.py`).
`execution_time` is wall-clock elapsed time in the source; timing is not
modelled, so it is carried as a field always set to 0. -/
structure QueryResult where
  data : List Row
  row_count : Nat
  execution_time : Nat
  query : String
  columns : List String
  success : Bool
  error_message : Option String
  deriving DecidableEq, Repr

/-- One execution scenario for `SnowflakeConnectionManager.execute_query`:
the outcome of each fallible external step, the server-side result set
and the cursor metadata.  An `Except.error` value carries the text of the
raised exception. -/
structure QueryEnv where
  /-- Outcome of `get_connection` (connection acquisition); carries the
  connection handle on success. -/
  acquire : Except String Nat
  /-- Outcome of the `ALTER SESSION SET STATEMENT_TIMEOUT_IN_SECONDS`
  statement. -/
  timeoutStmt : Except String Unit
  /-- Outcome of `cursor.execute(query[, params])`. -/
  runQuery : Except String Unit
  /-- Outcome of the `cursor.fetchmany` call itself. -/
  fetchStep : Except String Unit
  /-- The server-side result set the cursor would deliver in full. -/
  rows : List Row
  /-- `cursor.description` column names, `none` when the cursor reports
  no description. -/
  description : Option (List String)

/-- Python truthiness of the `fetch_size` argument: `if fetch_size:` is
taken exactly when the argument is present and non-zero. -/
def fetchTruthy (fetch_size : Option Nat) : Bool :=
  match fetch_size with
  | some n => n != 0
  | none => false

/-- The body of the `try` block of `execute_query`: acquire a connection,
set the session timeout, execute the statement, fetch up to `fetch_size`
rows when that argument is truthy and up to `max_query_rows` otherwise,
and read the column names off the cursor description. -/
def execute_query_run (cfg : SnowflakeConfigData) (env : QueryEnv)
    (fetch_size : Option Nat) : Except String (List Row × List String) := do
  let _conn ← env.acquire
  let _ ← env.timeoutStmt
  let _ ← env.runQuery
  let _ ← env.fetchStep
  let results :=
    if fetchTruthy fetch_size then env.rows.take (fetch_size.getD 0)
    else env.rows.take cfg.max_query_rows
  let columns :=
    match env.description with
    | some cols => cols
    | none => []
  pure (results, columns)

/-- Embedding of `SnowflakeConnectionManager.execute_query`.  The
`try/except Exception` wrapper makes it a total function: a failing step
produces the failure-shaped `QueryResult` instead of propagating.  The
`params` argument only selects which `cursor.execute` overload runs; the
outcome of either is `env.runQuery`. -/
def execute_query (cfg : SnowflakeConfigData) (env : QueryEnv)
    (query : String) (params : Option (List (String × Nat)))
    (fetch_size : Option Nat) : QueryResult :=
  let _ := params
  match execute_query_run cfg env fetch_size with
  | .ok (results, columns) =>
      { data := results, row_count := results.length, execution_time := 0,
        query := query, columns := columns, success := true,
        error_message := none }
  | .error e =>
      { data := [], row_count := 0, execution_time := 0, query := query,
        columns := [], success := false, error_message := some e }

/-- A configuration value used by concrete evaluations below. -/
def cfgEx : SnowflakeConfigData :=
  { snowflake_account := "abc12345.us-east-1.snowflakecomputing.com"
    snowflake_user := "analytics_user"
    snowflake_password := "pw"
    snowflake_warehouse := "COMPUTE_WH"
    snowflake_database := "ANALYTICS_DB"
    snowflake_schema := "PUBLIC"
    snowflake_role := none
    query_timeout := 300
    connection_pool_size := 10
    max_query_rows := 10000
    cache_ttl := 3600
    default_export_format := "csv"
    max_export_size_mb := 100
    export_retention_days := 30 }

/-- An all-successful query environment with a one-row result set. -/
def envOneRow : QueryEnv :=
  { acquire := .ok 0
    timeoutStmt := .ok ()
    runQuery := .ok ()
    fetchStep := .ok ()
    rows := [[("A", 1)]]
    description := some ["A"] }

/-- A query environment whose connection acquisition fails. -/
def envAcquireFail : QueryEnv :=
  { acquire := .error "Connection failed: boom"
    timeoutStmt := .ok ()
    runQuery := .ok ()
    fetchStep := .ok ()
    rows := []
    description := none }

/-! ## Connection pool (`SnowflakeConnectionManager.get_connection`)

The idle pool `_connection_pool` is a Python list used as a stack:
`pop()` removes the last element, `append` adds at the end.  Connection
handles are modelled as naturals; `nextId` numbers the fresh connections
`_create_connection` would open.  Each entry of `get_connection` is an
acquire step parametrised by the health-probe outcomes `hp` and by
whether `_create_connection` succeeds; each exit (the `finally` block)
is a release step parametrised by the probe outcome on the returned
connection. -/

/-- The mutable state of the connection manager: the idle pool and a
counter for fresh connection handles. -/
structure PoolState where
  pool : List Nat
  nextId : Nat
  deriving DecidableEq, Repr

/-- The state at manager construction: `_connection_pool = []`. -/
def initPoolState : PoolState := { pool := [], nextId := 0 }

/-- Python `list.pop()`: remove and return the last element, or fail on
an empty list. -/
def poolPop (l : List Nat) : Option (Nat × List Nat) :=
  match l.getLast? with
  | some c => some (c, l.dropLast)
  | none => none

/-- Entry of `get_connection` (lines 124–137): if the pool is non-empty,
pop a connection and probe it — keep it when healthy, close it when not;
when no pooled connection is usable, call `_create_connection` (which
may itself fail, modelled by `createOk`).  Returns the borrowed
connection (`none` when creation failed and the exception propagates)
and the pool state after entry. -/
def acquireStep (hp : Nat → Bool) (createOk : Bool) (s : PoolState) :
    Option Nat × PoolState :=
  match poolPop s.pool with
  | some (c, rest) =>
      if hp c then (some c, { s with pool := rest })
      else if createOk then
        (some s.nextId, { pool := rest, nextId := s.nextId + 1 })
      else (none, { s with pool := rest })
  | none =>
      if createOk then (some s.nextId, { s with nextId := s.nextId + 1 })
      else (none, s)

/-- Exit of `get_connection` (the `finally` block, lines 150–161):
re-probe the returned connection; if healthy and the idle pool is below
`connection_pool_size`, append it, otherwise close it. -/
def releaseStep (cfg : SnowflakeConfigData) (conn : Nat) (healthy : Bool)
    (s : PoolState) : PoolState :=
  if healthy then
    if s.pool.length < cfg.connection_pool_size then
      { s with pool := s.pool ++ [conn] }
    else s
  else s

/-- One observable pool operation: an entry or an exit of
`get_connection`, with the external outcomes (probe results, creation
success) it depends on. -/
inductive PoolOp where
  | acquire (hp : Nat → Bool) (createOk : Bool)
  | release (conn : Nat) (healthy : Bool)

/-- Apply one pool operation to the state. -/
def applyOp (cfg : SnowflakeConfigData) (s : PoolState) : PoolOp → PoolState
  | .acquire hp createOk => (acquireStep hp createOk s).2
  | .release conn healthy => releaseStep cfg conn healthy s

/-- Run a finite sequence of pool operations from a state. -/
def runOps (cfg : SnowflakeConfigData) (s : PoolState) :
    List PoolOp → PoolState
  | [] => s
  | op :: rest => runOps cfg (applyOp cfg s op) rest

/-! ## Configuration loading (`snowflake_config.py`)

The account identifier is handled by the pydantic validator
`validate_account`; strings are embedded as lists of characters so that
the suffix/membership tests are plain list operations. -/

/-- The fully-qualified host suffix `validate_account` tests for. -/
def accountSuffix : List Char := ".snowflakecomputing.com".toList

/-- Embedding of the `validate_account` validator
(`snowflake_config.py` lines 82–108): keep an identifier that already
ends in the host suffix; append the suffix when the identifier contains
a dot; otherwise raise a `ValueError` (one message for the
account-identifier-without-region shape, one generic). -/
def validate_account (v : List Char) : Except String (List Char) :=
  if v = [] then .error "Snowflake account is required"
  else if accountSuffix.isSuffixOf v then .ok v
  else if v.contains '.' then .ok (v ++ accountSuffix)
  else if 5 < v.length ∧ '-' ∈ v then
    .error ("Account '" ++ String.mk v ++ "' needs region. Check your Snowflake URL to find the correct region.")
  else .error "Account must include region (e.g., 'abc12345.us-east-1')"

/-- The fixed-length placeholder, Python `'*' * 8`. -/
def passwordMask : String := String.mk (List.replicate 8 '*')

/-- Embedding of `SnowflakeConfig.mask_sensitive_data`
(`snowflake_config.py` lines 202–217): the configuration dictionary
with the password replaced by the placeholder when it is non-empty
(Python truthiness of the field value). -/
def mask_sensitive_data (c : SnowflakeConfigData) : SnowflakeConfigData :=
  if c.snowflake_password ≠ "" then
    { c with snowflake_password := passwordMask }
  else c

/-- A configuration equal to `cfgEx` except for a longer password. -/
def cfgEx2 : SnowflakeConfigData :=
  { cfgEx with snowflake_password := "another-much-longer-password" }

/-! ## Exporter (`data_export.py`)

`DataExporter.export_query_results` and `get_export_preview`.  The
connection manager the exporter calls into is abstracted: for the
export path by the outcome of the single `execute_query_to_dataframe`
call (which raises on failure), for the preview path by a function from
query text to the `QueryResult` that `execute_query` returns.  Each
embedded operation also returns the list of queries it handed to the
connection manager, so that "no query executes" is an equation on that
list. -/

/-- `DataExporter.supported_formats` (`data_export.py` line 55). -/
def supported_formats : List String := ["csv", "json", "parquet", "xlsx"]

/-- ASCII lowercasing of one character, the behaviour of Python
`str.lower` on the ASCII format names handled here. -/
def lowerChar (c : Char) : Char :=
  if 'A' ≤ c ∧ c ≤ 'Z' then Char.ofNat (c.toNat + 32) else c

/-- Python `format.lower()` over the characters of the string. -/
def strLower (s : String) : String := String.mk (s.toList.map lowerChar)

/-- One export scenario: the outcome of `execute_query_to_dataframe`,
the estimated in-memory size of the resulting dataframe in MB, and the
formatted `datetime.now()` timestamp. -/
structure ExportEnv where
  dataframe : Except String (List Row)
  df_size_mb : Nat
  timestamp : String

/-- Observable outcome of `export_query_results`: a streaming response,
or a raised `HTTPException` with its status code and detail text. -/
inductive ExportOutcome where
  | streaming (format : String) (filename : String) (rows : List Row)
  | httpError (status : Nat) (detail : String)
  deriving DecidableEq, Repr

/-- Embedding of `DataExporter.export_query_results` (`data_export.py`
lines 65–114).  The second component records the queries handed to the
connection manager.  The format check happens first, before any query
runs; inside the `try`, a failing query or an oversized dataframe is
re-raised as a 500 `HTTPException`. -/
def export_query_results (cfg : SnowflakeConfigData) (env : ExportEnv)
    (query : String) (format : String) (filename : Option String) :
    ExportOutcome × List String :=
  let format := strLower format
  if format ∉ supported_formats then
    (.httpError 400 ("Unsupported format '" ++ format
        ++ "'. Supported formats: ['csv', 'json', 'parquet', 'xlsx']"), [])
  else
    let filename :=
      match filename with
      | none => "export_" ++ env.timestamp ++ "." ++ format
      | some f => if f.endsWith ("." ++ format) then f
                  else f ++ "." ++ format
    match env.dataframe with
    | .error e => (.httpError 500 ("Export failed: " ++ e), [query])
    | .ok df =>
        if cfg.max_export_size_mb < env.df_size_mb then
          (.httpError 500 "Export failed: export size exceeds limit", [query])
        else (.streaming format filename df, [query])

/-- An export scenario whose query would itself fail server-side. -/
def envExportFail : ExportEnv :=
  { dataframe := .error "SQL compilation error"
    df_size_mb := 0
    timestamp := "20261012_000000" }

/-- Observable result of `get_export_preview`: the dictionary it
returns.  The Python failure dictionary carries only `success`,
`error` and `supported_formats`; its absent keys are modelled as
zero/empty defaults here.  The constant `supported_formats` entry and
the elapsed-time entry are not carried. -/
structure PreviewOut where
  success : Bool
  preview_data : List Row
  preview_row_count : Nat
  total_estimated_rows : Nat
  columns : List String
  column_count : Nat
  error : Option String
  deriving DecidableEq, Repr

/-- Embedding of `DataExporter.get_export_preview` (`data_export.py`
lines 283–330).  `exec` abstracts `connection_manager.execute_query`.
A non-success preview result is raised as an exception and caught by
the surrounding `try`, producing the failure dictionary; a non-success
count result is tolerated, leaving the row estimate at 0. -/
def get_export_preview (exec : String → QueryResult) (query : String)
    (limit : Nat) : PreviewOut :=
  let preview_query := "SELECT * FROM (" ++ query ++ ") LIMIT " ++ toString limit
  let result := exec preview_query
  if result.success = false then
    { success := false, preview_data := [], preview_row_count := 0,
      total_estimated_rows := 0, columns := [], column_count := 0,
      error := some (result.error_message.getD "None") }
  else
    let count_query := "SELECT COUNT(*) as total_rows FROM (" ++ query ++ ")"
    let count_result := exec count_query
    let total_rows :=
      if count_result.success && !count_result.data.isEmpty then
        ((count_result.data.headD []).lookup "TOTAL_ROWS").getD 0
      else 0
    { success := true, preview_data := result.data,
      preview_row_count := result.row_count,
      total_estimated_rows := total_rows, columns := result.columns,
      column_count := result.columns.length, error := none }

/-- A successful `QueryResult` used by concrete preview scenarios. -/
def okResult (q : String) : QueryResult :=
  { data := [[("A", 1)]], row_count := 1, execution_time := 0, query := q,
    columns := ["A"], success := true, error_message := none }

/-- A failed `QueryResult` used by concrete preview scenarios. -/
def failResult (q : String) : QueryResult :=
  { data := [], row_count := 0, execution_time := 0, query := q,
    columns := [], success := false, error_message := some "count failed" }

/-- An executor for which exactly the `COUNT(*)` estimate query
fails. -/
def execCountFails : String → QueryResult := fun q =>
  if q = "SELECT COUNT(*) as total_rows FROM (SELECT 1)" then failResult q
  else okResult q

/-! ## Validator (`snowflake_validator.py`)

`SnowflakeValidator.validate_setup` runs check tiers selected by the
validation level.  Each individual check is abstracted by its outcome
(success flag and message); `_run_check`'s exception wrapping is already
folded into those outcomes.  The validator state threads `self.config`
(set by a successful configuration-loading check) and
`self.connection_manager` (set by a successful connection-manager
check); the details and elapsed-time entries of `ValidationResult` are
not carried. -/

/-- The three validation levels. -/
inductive ValidationLevel where
  | basic
  | standard
  | comprehensive
  deriving DecidableEq, Repr

/-- Embedding of the `ValidationResult` dataclass (name, success flag,
message). -/
structure ValidationResult where
  check_name : String
  success : Bool
  message : String
  deriving DecidableEq, Repr

/-- Embedding of the `ValidationReport` dataclass, without the
elapsed-time and timestamp fields. -/
structure ValidationReport where
  overall_success : Bool
  total_checks : Nat
  passed_checks : Nat
  failed_checks : Nat
  results : List ValidationResult
  deriving DecidableEq, Repr

/-- Outcome of one wrapped check: its success flag and message. -/
structure CheckOutcome where
  success : Bool
  message : String
  deriving DecidableEq, Repr

/-- The outcomes of every check a validation run could perform.
`config_loading` is the outcome of `load_snowflake_config` (the loaded
configuration or the exception text); `connection_manager` the outcome
of constructing `SnowflakeConnectionManager`. -/
structure ValidatorEnv where
  config_loading : Except String SnowflakeConfigData
  required_fields : CheckOutcome
  field_formats : CheckOutcome
  numeric_settings : CheckOutcome
  connection_manager : Except String Unit
  basic_connectivity : CheckOutcome
  session_information : CheckOutcome
  query_execution : CheckOutcome
  database_access : CheckOutcome
  schema_access : CheckOutcome
  warehouse_usage : CheckOutcome
  table_listing : CheckOutcome
  connection_pool : CheckOutcome
  query_timeout : CheckOutcome
  large_results : CheckOutcome

/-- The validator's mutable attributes: `self.config` and
`self.connection_manager`. -/
structure ValidatorState where
  config : Option SnowflakeConfigData
  connection_manager : Option Unit

/-- Build a `ValidationResult` from a wrapped check outcome
(`_run_check`). -/
def mkResult (name : String) (o : CheckOutcome) : ValidationResult :=
  { check_name := name, success := o.success, message := o.message }

/-- Embedding of `_validate_configuration` (lines 120–152): run the
configuration-loading check; on failure return only that result, on
success (which sets `self.config`) run the three remaining
configuration checks. -/
def validate_configuration (env : ValidatorEnv) (st : ValidatorState) :
    List ValidationResult × ValidatorState :=
  match env.config_loading with
  | .error e =>
      ([{ check_name := "Configuration Loading", success := false,
          message := "Failed to load configuration: " ++ e }], st)
  | .ok cfg =>
      ([{ check_name := "Configuration Loading", success := true,
          message := "Configuration loaded successfully" },
        mkResult "Required Fields" env.required_fields,
        mkResult "Field Formats" env.field_formats,
        mkResult "Numeric Settings" env.numeric_settings],
       { st with config := some cfg })

/-- Embedding of `_validate_connection` (lines 154–194): with no loaded
configuration, report a single failed placeholder and skip; otherwise
run the connection-manager check (which sets
`self.connection_manager`), short-circuiting the remaining connectivity
checks when it fails. -/
def validate_connection (env : ValidatorEnv) (st : ValidatorState) :
    List ValidationResult × ValidatorState :=
  match st.config with
  | none =>
      ([{ check_name := "Connection Setup", success := false,
          message := "Configuration not loaded, skipping connection tests" }],
       st)
  | some _ =>
      match env.connection_manager with
      | .error e =>
          ([{ check_name := "Connection Manager", success := false,
              message := "Failed to create connection manager: " ++ e }], st)
      | .ok _ =>
          ([{ check_name := "Connection Manager", success := true,
              message := "Connection manager created successfully" },
            mkResult "Basic Connectivity" env.basic_connectivity,
            mkResult "Session Information" env.session_information,
            mkResult "Query Execution" env.query_execution],
           { st with connection_manager := some () })

/-- Embedding of `_validate_permissions` (lines 196–232): with no
connection manager, report a single failed placeholder; otherwise run
the four permission checks. -/
def validate_permissions (env : ValidatorEnv) (st : ValidatorState) :
    List ValidationResult :=
  match st.connection_manager with
  | none =>
      [{ check_name := "Permission Setup", success := false,
         message := "Connection manager not available, skipping permission tests" }]
  | some _ =>
      [mkResult "Database Access" env.database_access,
       mkResult "Schema Access" env.schema_access,
       mkResult "Warehouse Usage" env.warehouse_usage,
       mkResult "Table Listing" env.table_listing]

/-- Embedding of `_validate_performance` (lines 234–259): with no
connection manager, report nothing; otherwise run the three performance
checks. -/
def validate_performance (env : ValidatorEnv) (st : ValidatorState) :
    List ValidationResult :=
  match st.connection_manager with
  | none => []
  | some _ =>
      [mkResult "Connection Pool" env.connection_pool,
       mkResult "Query Timeout" env.query_timeout,
       mkResult "Large Results" env.large_results]

/-- Embedding of `validate_setup` (lines 74–118): configuration checks
always run; connection checks at standard and comprehensive level;
permission and performance checks at comprehensive level; then the
summary is aggregated. -/
def validate_setup (env : ValidatorEnv) (st : ValidatorState)
    (level : ValidationLevel) : ValidationReport :=
  let cr := validate_configuration env st
  let nr :=
    if level = ValidationLevel.standard ∨ level = ValidationLevel.comprehensive
    then validate_connection env cr.2
    else ([], cr.2)
  let pr :=
    if level = ValidationLevel.comprehensive
    then validate_permissions env nr.2 ++ validate_performance env nr.2
    else []
  let results := cr.1 ++ nr.1 ++ pr
  let passed := (results.filter (fun r => r.success)).length
  let failed := results.length - passed
  { overall_success := failed = 0
    total_checks := results.length
    passed_checks := passed
    failed_checks := failed
    results := results }

/-- The freshly constructed validator (`__init__` with no configuration
argument): `self.config = None`, `self.connection_manager = None`. -/
def initValidatorState : ValidatorState :=
  { config := none, connection_manager := none }

/-- A validation scenario in which configuration loading fails and
every other check would succeed. -/
def envConfigLoadFails : ValidatorEnv :=
  { config_loading := .error "boom"
    required_fields := { success := true, message := "ok" }
    field_formats := { success := true, message := "ok" }
    numeric_settings := { success := true, message := "ok" }
    connection_manager := .ok ()
    basic_connectivity := { success := true, message := "ok" }
    session_information := { success := true, message := "ok" }
    query_execution := { success := true, message := "ok" }
    database_access := { success := true, message := "ok" }
    schema_access := { success := true, message := "ok" }
    warehouse_usage := { success := true, message := "ok" }
    table_listing := { success := true, message := "ok" }
    connection_pool := { success := true, message := "ok" }
    query_timeout := { success := true, message := "ok" }
    large_results := { success := true, message := "ok" } }

/-! ## Theorems -/

/-- Reduction of `>>=` on an `Except.error` value. -/
theorem except_error_bind {ε α β : Type} (e : ε) (f : α → Except ε β) :
    (Except.error e : Except ε α) >>= f = Except.error e := rfl

/-- Reduction of `>>=` on an `Except.ok` value. -/
theorem except_ok_bind {ε α β : Type} (a : α) (f : α → Except ε β) :
    (Except.ok a : Except ε α) >>= f = f a := rfl

/-- Inversion for a successful `execute_query_run`: every step succeeded,
the rows are the appropriately truncated result set and the columns come
off the cursor description. -/
theorem execute_query_run_ok_inv (cfg : SnowflakeConfigData)
    (env : QueryEnv) (fs : Option Nat) (results : List Row)
    (columns : List String)
    (h : execute_query_run cfg env fs = .ok (results, columns)) :
    results = (if fetchTruthy fs then env.rows.take (fs.getD 0)
               else env.rows.take cfg.max_query_rows) := by
  rcases ha : env.acquire with e | c
  · simp [execute_query_run, ha, except_error_bind] at h
  rcases ht : env.timeoutStmt with e | u
  · simp [execute_query_run, ha, ht, except_error_bind, except_ok_bind] at h
  rcases hr : env.runQuery with e | v
  · simp [execute_query_run, ha, ht, hr, except_error_bind, except_ok_bind] at h
  rcases hf : env.fetchStep with e | w
  · simp [execute_query_run, ha, ht, hr, hf, except_error_bind,
      except_ok_bind] at h
  simp [execute_query_run, ha, ht, hr, hf, except_ok_bind] at h
  exact h.1.symm

/-- C1: `execute_query` never raises to its caller — it is a total
function of the execution scenario — and whenever connection
acquisition, the session-timeout statement, the query execution or the
row fetch fails (with `e` the text of the first failing step), it
returns a `QueryResult` with `success = false`, empty `data`, empty
`columns` and `error_message` set to that text. -/
theorem execute_query_failure_shape (cfg : SnowflakeConfigData)
    (env : QueryEnv) (q : String) (p : Option (List (String × Nat)))
    (fs : Option Nat) (e : String)
    (h : env.acquire = .error e
       ∨ ((∃ c, env.acquire = .ok c) ∧ env.timeoutStmt = .error e)
       ∨ ((∃ c, env.acquire = .ok c) ∧ env.timeoutStmt = .ok ()
            ∧ env.runQuery = .error e)
       ∨ ((∃ c, env.acquire = .ok c) ∧ env.timeoutStmt = .ok ()
            ∧ env.runQuery = .ok () ∧ env.fetchStep = .error e)) :
    execute_query cfg env q p fs =
      { data := [], row_count := 0, execution_time := 0, query := q,
        columns := [], success := false, error_message := some e } := by
  have hrun : execute_query_run cfg env fs = .error e := by
    rcases h with h | ⟨⟨c, hc⟩, h⟩ | ⟨⟨c, hc⟩, ht, h⟩ | ⟨⟨c, hc⟩, ht, hr, h⟩
    · simp [execute_query_run, h, except_error_bind]
    · simp [execute_query_run, hc, h, except_ok_bind, except_error_bind]
    · simp [execute_query_run, hc, ht, h, except_ok_bind, except_error_bind]
    · simp [execute_query_run, hc, ht, hr, h, except_ok_bind,
        except_error_bind]
  simp [execute_query, hrun]

/-- Witness for C1 at a concrete failing scenario. -/
theorem execute_query_failure_shape_witness :
    execute_query cfgEx envAcquireFail "SELECT 1" none none =
      { data := [], row_count := 0, execution_time := 0,
        query := "SELECT 1", columns := [], success := false,
        error_message := some "Connection failed: boom" } :=
  execute_query_failure_shape cfgEx envAcquireFail "SELECT 1" none none
    "Connection failed: boom" (Or.inl rfl)

/-- C2 (counterexample): with `fetch_size = 0` supplied, a successful
call can return more than `fetch_size` rows — the truthiness test sends
`0` to the `max_query_rows` branch — so "at most `fetch_size` rows
whenever a fetch size is supplied" fails at `fetch_size = 0`. -/
theorem execute_query_fetch_size_claim_counterexample :
    (execute_query cfgEx envOneRow "SELECT 1" none (some 0)).success = true
    ∧ ¬ ((execute_query cfgEx envOneRow "SELECT 1" none (some 0)).data.length ≤ 0) := by
  decide

/-- C2 (amended): on success, `row_count` equals the length of `data`,
`data` has at most `fetch_size` rows when a non-zero fetch size is
supplied, and at most `max_query_rows` rows otherwise (no fetch size, or
fetch size 0); on failure, `data` is empty and `error_message` is set. -/
theorem execute_query_result_invariants (cfg : SnowflakeConfigData)
    (env : QueryEnv) (q : String) (p : Option (List (String × Nat)))
    (fs : Option Nat) :
    ((execute_query cfg env q p fs).success = true →
        (execute_query cfg env q p fs).row_count
            = (execute_query cfg env q p fs).data.length
        ∧ (∀ n, fs = some n → n ≠ 0 →
            (execute_query cfg env q p fs).data.length ≤ n)
        ∧ (fetchTruthy fs = false →
            (execute_query cfg env q p fs).data.length ≤ cfg.max_query_rows))
    ∧ ((execute_query cfg env q p fs).success = false →
        (execute_query cfg env q p fs).data = []
        ∧ ∃ msg, (execute_query cfg env q p fs).error_message = some msg) := by
  rcases hrun : execute_query_run cfg env fs with e | pr
  · constructor
    · intro hs
      simp [execute_query, hrun] at hs
    · intro _
      simp [execute_query, hrun]
  · obtain ⟨results, columns⟩ := pr
    have hres := execute_query_run_ok_inv cfg env fs results columns hrun
    have hdata : (execute_query cfg env q p fs).data = results := by
      simp [execute_query, hrun]
    constructor
    · intro _
      refine ⟨by simp [execute_query, hrun], ?_, ?_⟩
      · intro n hn hnz
        subst hn
        have h2 : fetchTruthy (some n) = true := by simp [fetchTruthy, hnz]
        rw [h2] at hres
        simp only [if_true, Option.getD_some] at hres
        rw [hdata, hres]
        simp [List.length_take]
      · intro hft
        rw [hft] at hres
        simp only [Bool.false_eq_true, if_false] at hres
        rw [hdata, hres]
        simp [List.length_take]
    · intro hs
      simp [execute_query, hrun] at hs

/-- Witness for C2 at a concrete successful scenario with
`fetch_size = 3`. -/
theorem execute_query_result_invariants_witness :
    (execute_query cfgEx envOneRow "SELECT 1" none (some 3)).row_count
        = (execute_query cfgEx envOneRow "SELECT 1" none (some 3)).data.length
    ∧ (execute_query cfgEx envOneRow "SELECT 1" none (some 3)).data.length ≤ 3 :=
  let h := execute_query_result_invariants cfgEx envOneRow "SELECT 1" none (some 3)
  ⟨(h.1 (by decide)).1, (h.1 (by decide)).2.1 3 rfl (by decide)⟩

/-- C10: supplying `fetch_size = 0` behaves exactly as supplying no
fetch size at all — the branch tests Python truthiness, so both fetch up
to `max_query_rows` rows. -/
theorem execute_query_fetch_size_zero_is_none (cfg : SnowflakeConfigData)
    (env : QueryEnv) (q : String) (p : Option (List (String × Nat))) :
    execute_query cfg env q p (some 0) = execute_query cfg env q p none := rfl

/-- Every single pool operation preserves the pool bound. -/
theorem applyOp_pool_le (cfg : SnowflakeConfigData) (s : PoolState)
    (op : PoolOp) (h : s.pool.length ≤ cfg.connection_pool_size) :
    (applyOp cfg s op).pool.length ≤ cfg.connection_pool_size := by
  cases op with
  | acquire hp createOk =>
    simp only [applyOp, acquireStep]
    cases hpop : poolPop s.pool with
    | some pr =>
      obtain ⟨c, rest⟩ := pr
      have hrest : rest = s.pool.dropLast := by
        unfold poolPop at hpop
        cases hlast : s.pool.getLast? with
        | some d => rw [hlast] at hpop; cases hpop; rfl
        | none => rw [hlast] at hpop; cases hpop
      have hlen : rest.length ≤ s.pool.length := by
        rw [hrest, List.length_dropLast]; omega
      by_cases hhp : hp c = true
      · simp [hhp]; omega
      · simp [hhp]
        by_cases hck : createOk = true
        · simp [hck]; omega
        · simp [hck]; omega
    | none =>
      by_cases hck : createOk = true
      · simp [hck]; omega
      · simp [hck]; omega
  | release conn healthy =>
    simp only [applyOp, releaseStep]
    by_cases hh : healthy = true
    · simp only [hh, if_true]
      by_cases hlt : s.pool.length < cfg.connection_pool_size
      · simp [hlt]; omega
      · simp [hlt]; omega
    · simp [hh]; omega

/-- The pool bound is preserved by any operation sequence. -/
theorem runOps_pool_le (cfg : SnowflakeConfigData) (ops : List PoolOp)
    (s : PoolState) (h : s.pool.length ≤ cfg.connection_pool_size) :
    (runOps cfg s ops).pool.length ≤ cfg.connection_pool_size := by
  induction ops generalizing s with
  | nil => exact h
  | cons op rest ih => exact ih _ (applyOp_pool_le cfg s op h)

/-- C3: starting from the freshly constructed manager, no finite
sequence of acquire/release operations ever makes the idle pool
`_connection_pool` hold more than `connection_pool_size` connections. -/
theorem connection_pool_never_exceeds_limit (cfg : SnowflakeConfigData)
    (ops : List PoolOp) :
    (runOps cfg initPoolState ops).pool.length ≤ cfg.connection_pool_size :=
  runOps_pool_le cfg ops initPoolState (Nat.zero_le _)

/-- C4 (counterexample): from an empty idle pool, an acquire (which
creates a fresh connection) immediately followed by its release (probe
healthy) grows the idle pool from 0 to 1 — the pair does not leave the
idle pool size unchanged for every pool state, even with every health
probe succeeding. -/
theorem acquire_release_empty_pool_counterexample :
    initPoolState.pool.length = 0
    ∧ (releaseStep cfgEx
        ((acquireStep (fun _ => true) true initPoolState).1.getD 0) true
        (acquireStep (fun _ => true) true initPoolState).2).pool.length = 1 := by
  decide

/-- C4 (amended): from any reachable pool state whose idle pool is
non-empty, an acquire immediately followed by a release of the borrowed
connection, with every health probe succeeding, leaves the idle pool
size unchanged.  (From an empty pool the pair instead grows the pool by
the one freshly created connection.) -/
theorem acquire_release_preserves_nonempty_pool (cfg : SnowflakeConfigData)
    (s : PoolState) (hp : Nat → Bool) (hne : s.pool ≠ [])
    (hbound : s.pool.length ≤ cfg.connection_pool_size)
    (hhp : ∀ c, hp c = true) :
    (releaseStep cfg ((acquireStep hp true s).1.getD 0) true
        (acquireStep hp true s).2).pool.length = s.pool.length := by
  have hlen : 0 < s.pool.length := List.length_pos.mpr hne
  cases hlast : s.pool.getLast? with
  | none =>
    rw [List.getLast?_eq_none_iff] at hlast
    exact absurd hlast hne
  | some c =>
    have hlt : s.pool.dropLast.length < cfg.connection_pool_size := by
      rw [List.length_dropLast]; omega
    simp only [acquireStep, poolPop, hlast, hhp, if_true]
    simp only [Option.getD_some, releaseStep, if_true, hlt, if_pos]
    simp [List.length_dropLast]
    omega

/-- Witness for C4 (amended) at a one-element pool. -/
theorem acquire_release_preserves_nonempty_pool_witness :
    (releaseStep cfgEx
        ((acquireStep (fun _ => true) true ⟨[7], 1⟩).1.getD 0) true
        (acquireStep (fun _ => true) true ⟨[7], 1⟩).2).pool.length
      = (⟨[7], 1⟩ : PoolState).pool.length :=
  acquire_release_preserves_nonempty_pool cfgEx ⟨[7], 1⟩ (fun _ => true)
    (by decide) (by decide) (fun _ => rfl)

/-- C7: an identifier already ending in `.snowflakecomputing.com` is
left unchanged; an identifier without that suffix containing exactly
one dot gets the suffix appended; an identifier with no dot at all
makes loading fail with a configuration error. -/
theorem validate_account_spec (v : List Char) :
    (accountSuffix.isSuffixOf v = true → validate_account v = .ok v)
    ∧ (accountSuffix.isSuffixOf v = false → v.count '.' = 1 →
        validate_account v = .ok (v ++ accountSuffix))
    ∧ (v.contains '.' = false → ∃ e, validate_account v = .error e) := by
  refine ⟨?_, ?_, ?_⟩
  · intro h
    have hvne : v ≠ [] := by
      intro hv
      subst hv
      have h0 : accountSuffix = [] :=
        List.suffix_nil.mp (List.isSuffixOf_iff_suffix.mp h)
      exact absurd h0 (by decide)
    simp [validate_account, hvne, h]
  · intro h1 h2
    have hvne : v ≠ [] := by
      intro hv
      subst hv
      simp [List.count_nil] at h2
    have hmem : '.' ∈ v := by
      have hpos : 0 < v.count '.' := by omega
      exact List.count_pos_iff.mp hpos
    simp [validate_account, hvne, h1, hmem]
  · intro hc
    by_cases hv : v = []
    · subst hv
      exact ⟨"Snowflake account is required", by simp [validate_account]⟩
    · have hmem : '.' ∉ v := by
        intro hm
        simp at hc
        exact hc hm
      have hsuf : accountSuffix.isSuffixOf v = false := by
        cases h : accountSuffix.isSuffixOf v
        · rfl
        · have hs := List.isSuffixOf_iff_suffix.mp h
          exact absurd (hs.subset (by decide)) hmem
      simp only [validate_account, if_neg hv, hsuf, Bool.false_eq_true,
        if_false, hc]
      split
      · exact ⟨_, rfl⟩
      · exact ⟨_, rfl⟩

/-- Witness for C7: a one-dot identifier gets the suffix appended. -/
theorem validate_account_spec_witness :
    validate_account "abc12345.us-east-1".toList
      = .ok ("abc12345.us-east-1".toList ++ accountSuffix) :=
  (validate_account_spec "abc12345.us-east-1".toList).2.1 (by decide)
    (by decide)

/-- C9: two loaded configurations that differ only in their non-empty
password mask to identical output, and the password field of that
output is the fixed eight-character placeholder — the masked output
reveals neither the password's content nor its length. -/
theorem mask_sensitive_data_hides_password (c1 c2 : SnowflakeConfigData)
    (h1 : c1.snowflake_password ≠ "") (h2 : c2.snowflake_password ≠ "")
    (hsame : c2 = { c1 with snowflake_password := c2.snowflake_password }) :
    mask_sensitive_data c1 = mask_sensitive_data c2
    ∧ (mask_sensitive_data c1).snowflake_password = "********" := by
  constructor
  · rw [hsame]
    simp [mask_sensitive_data, h1, h2]
  · simp [mask_sensitive_data, h1]
    decide

/-- Witness for C9 on two concrete configurations with passwords of
different length. -/
theorem mask_sensitive_data_hides_password_witness :
    mask_sensitive_data cfgEx = mask_sensitive_data cfgEx2
    ∧ (mask_sensitive_data cfgEx).snowflake_password = "********" :=
  mask_sensitive_data_hides_password cfgEx cfgEx2 (by decide) (by decide)
    (by decide)

/-- C5: for a format whose lowercase form is not among the supported
ones, `export_query_results` raises the invalid-format 400 error before
any query executes — the list of queries handed to the connection
manager is empty, so a query that would itself error is never run. -/
theorem export_invalid_format_runs_no_query (cfg : SnowflakeConfigData)
    (env : ExportEnv) (query : String) (format : String)
    (filename : Option String) (h : strLower format ∉ supported_formats) :
    (export_query_results cfg env query format filename).2 = []
    ∧ ∃ d, (export_query_results cfg env query format filename).1
        = .httpError 400 d := by
  constructor
  · simp [export_query_results, h]
  · exact ⟨"Unsupported format '" ++ strLower format
      ++ "'. Supported formats: ['csv', 'json', 'parquet', 'xlsx']",
      by simp [export_query_results, h]⟩

/-- Witness for C5 with format `"bogus"` and a failing query. -/
theorem export_invalid_format_runs_no_query_witness :
    (export_query_results cfgEx envExportFail "SELECT * FROM missing"
        "bogus" none).2 = []
    ∧ ∃ d, (export_query_results cfgEx envExportFail "SELECT * FROM missing"
        "bogus" none).1 = .httpError 400 d :=
  export_invalid_format_runs_no_query cfgEx envExportFail
    "SELECT * FROM missing" "bogus" none (by decide)

/-- C8 (counterexample): when the `SELECT COUNT(*)` estimate sub-query
fails but the limited preview query succeeds, `get_export_preview`
returns `success = true` with no error field — not the claimed
`success = false` — because the code guards the count result and falls
back to a 0 estimate instead of failing. -/
theorem preview_count_failure_counterexample :
    (execCountFails "SELECT COUNT(*) as total_rows FROM (SELECT 1)").success
        = false
    ∧ (get_export_preview execCountFails "SELECT 1" 100).success = true
    ∧ (get_export_preview execCountFails "SELECT 1" 100).error = none := by
  decide

/-- C8 (amended): `get_export_preview` never raises (it is a total
function of the executor's answers); when the limited preview sub-query
fails the returned mapping has `success = false` and carries an error
field; when the preview sub-query succeeds the mapping has
`success = true` even if the `COUNT(*)` estimate sub-query fails, in
which case the row estimate falls back to 0. -/
theorem get_export_preview_failure_behaviour (exec : String → QueryResult)
    (query : String) (limit : Nat) :
    ((exec ("SELECT * FROM (" ++ query ++ ") LIMIT " ++ toString limit)).success
          = false →
        (get_export_preview exec query limit).success = false
        ∧ ∃ e, (get_export_preview exec query limit).error = some e)
    ∧ ((exec ("SELECT * FROM (" ++ query ++ ") LIMIT " ++ toString limit)).success
          = true →
        (get_export_preview exec query limit).success = true
        ∧ ((exec ("SELECT COUNT(*) as total_rows FROM (" ++ query ++ ")")).success
              = false →
            (get_export_preview exec query limit).total_estimated_rows = 0)) := by
  constructor
  · intro h
    refine ⟨?_, ⟨(exec ("SELECT * FROM (" ++ query ++ ") LIMIT "
        ++ toString limit)).error_message.getD "None", ?_⟩⟩ <;>
      simp [get_export_preview, h]
  · intro h
    refine ⟨?_, ?_⟩
    · simp [get_export_preview, h]
    · intro hcount
      simp [get_export_preview, h, hcount]

/-- Witness for C8 (amended) on the scenario where only the count
sub-query fails. -/
theorem get_export_preview_failure_behaviour_witness :
    (get_export_preview execCountFails "SELECT 1" 100).success = true
    ∧ (get_export_preview execCountFails "SELECT 1" 100).total_estimated_rows
        = 0 :=
  let h := (get_export_preview_failure_behaviour execCountFails "SELECT 1"
    100).2 (by decide)
  ⟨h.1, h.2 (by decide)⟩

/-- C6 (counterexample): at standard level, a failed
configuration-loading check does not leave the report with only that
single result — `_validate_connection` still appends a failed
"Connection Setup" placeholder, so the report holds two results. -/
theorem validate_setup_config_fail_counterexample :
    (validate_setup envConfigLoadFails initValidatorState
        ValidationLevel.standard).results
      = [{ check_name := "Configuration Loading", success := false,
           message := "Failed to load configuration: boom" },
         { check_name := "Connection Setup", success := false,
           message := "Configuration not loaded, skipping connection tests" }]
    ∧ (validate_setup envConfigLoadFails initValidatorState
        ValidationLevel.standard).results.length ≠ 1 := by
  decide

/-- C6 (amended): if the configuration-loading check fails on a freshly
constructed validator, no further check executes; the report contains
the single failed configuration-loading result at basic level, plus a
failed "Connection Setup" skip placeholder at standard level, plus that
placeholder and a failed "Permission Setup" skip placeholder at
comprehensive level — and nothing else, whatever the other checks
would have returned. -/
theorem validate_setup_config_fail_short_circuit (env : ValidatorEnv)
    (level : ValidationLevel) (e : String)
    (h : env.config_loading = .error e) :
    (validate_setup env initValidatorState level).results
      = [{ check_name := "Configuration Loading", success := false,
           message := "Failed to load configuration: " ++ e }]
        ++ (if level = ValidationLevel.basic then []
            else [{ check_name := "Connection Setup", success := false,
                    message := "Configuration not loaded, skipping connection tests" }])
        ++ (if level = ValidationLevel.comprehensive then
              [{ check_name := "Permission Setup", success := false,
                 message := "Connection manager not available, skipping permission tests" }]
            else []) := by
  cases level <;>
    simp [validate_setup, validate_configuration, validate_connection,
      validate_permissions, validate_performance, initValidatorState, h]

/-- Witness for C6 (amended) at comprehensive level on the concrete
failing scenario. -/
theorem validate_setup_config_fail_short_circuit_witness :
    (validate_setup envConfigLoadFails initValidatorState
        ValidationLevel.comprehensive).results
      = [{ check_name := "Configuration Loading", success := false,
           message := "Failed to load configuration: boom" }]
        ++ [{ check_name := "Connection Setup", success := false,
              message := "Configuration not loaded, skipping connection tests" }]
        ++ [{ check_name := "Permission Setup", success := false,
              message := "Connection manager not available, skipping permission tests" }] := by
  have h := validate_setup_config_fail_short_circuit envConfigLoadFails
    ValidationLevel.comprehensive "boom" rfl
  simpa using h

end CustomerAnalytics
